import Mathlib

/-!
Shallow embedding of the image-localization subsystem of rst2a
(src/rst2a/images.py and src/rst2a/common.py), with an explicit model of
Python name resolution: each module's global namespace is the list of names
its import statements and top-level definitions bind, and evaluating a name
bound neither locally, nor in the module namespace, nor among the Python 2
builtins raises NameError.  Side effects (filesystem, downloads, working
directory, document-tree mutation) are threaded through a state monad whose
state persists across raised exceptions, as in CPython.
-/

namespace Rst2a

/-- Python exceptions raised by the modelled code. -/
inductive PyErr where
  | nameError (n : String)
  | unboundLocalError (n : String)
  | imageURLError (msg : String)
  | osError
  | valueError
  | assertionError (msg : String)
  | typeError
deriving DecidableEq, Repr

/-- A value stored in `ImageLocalizer.localized_images`: the values are meant
to be local file paths (strings), but images.py line 91 stores the bound
method `self.localize_image` instead, so the model admits both. -/
inductive MapVal where
  | path (p : String)
  | method
deriving DecidableEq, Repr

instance : BEq MapVal := instBEqOfDecidableEq

/-- Docutils node kinds the visitor dispatches on (`visit_image`,
`visit_figure`); all other node kinds are skipped by a
`SparseNodeVisitor`. -/
inductive NodeKind where
  | image
  | figure
deriving DecidableEq, Repr

/-- An image or figure node of the document tree; the single attribute the
visitor reads and writes is `attributes` at key `uri`. -/
structure ImgNode where
  kind : NodeKind
  uri : String
deriving DecidableEq, Repr

/-- Observable side effects, recorded in order of occurrence. -/
inductive Event where
  | download (url : String)
  | chdirTo (d : String)
  | mkfile (p : String)
  | rmfile (p : String)
  | mkdir (d : String)
  | rmdirOf (d : String)
deriving DecidableEq, Repr

/-- The world the Python code acts on: the filesystem (existing files and
directories, as absolute path strings), the process working directory, the
borrowed document tree (its image/figure nodes in walk order), a counter
supplying fresh names for mkdtemp/mkstemp, whether `import Image` (PIL)
succeeded in images.py, and the event trace. -/
structure World where
  files : List String
  dirs : List String
  cwd : String
  nodes : List ImgNode
  tempCounter : Nat
  imageLibAvailable : Bool
  events : List Event
deriving DecidableEq, Repr

/-- State-plus-exception monad: state persists across a raised exception,
matching CPython, where side effects performed before a raise remain. -/
def M (α : Type) : Type := World → Except PyErr α × World

def mPure {α : Type} (a : α) : M α := fun w => (Except.ok a, w)

def mBind {α β : Type} (x : M α) (f : α → M β) : M β := fun w =>
  match x w with
  | (Except.ok a, w1) => f a w1
  | (Except.error e, w1) => (Except.error e, w1)

instance : Monad M where
  pure := mPure
  bind := mBind

/-- Raise a Python exception. -/
def mThrow {α : Type} (e : PyErr) : M α := fun w => (Except.error e, w)

/-- Model of a `try ... except E: pass` block: the handler inspects the
exception and re-raises the ones the `except` clause does not name. -/
def mTry (body : M Unit) (handler : PyErr → M Unit) : M Unit := fun w =>
  match body w with
  | (Except.ok a, w1) => (Except.ok a, w1)
  | (Except.error e, w1) => handler e w1

def mGet : M World := fun w => (Except.ok w, w)

def mSet (w : World) : M Unit := fun _ => (Except.ok (), w)

def mModify (f : World → World) : M Unit := fun w => (Except.ok (), f w)

/-- Lift a pure fallible computation (one that reads no world state). -/
def liftE {α : Type} : Except PyErr α → M α
  | Except.ok a => mPure a
  | Except.error e => mThrow e

/-- Result component of running a computation. -/
def runE {α : Type} (m : M α) (w : World) : Except PyErr α := (m w).1

/-- Final world of running a computation (defined also when it raised). -/
def runW {α : Type} (m : M α) (w : World) : World := (m w).2

def isOkE {α : Type} : Except PyErr α → Bool
  | Except.ok _ => true
  | Except.error _ => false

/-! ### Python name resolution

Python 2 resolves a bare name through the local scope, then the module's
global namespace, then the builtins; an unbound name raises `NameError`.
The model invokes `pyGlobal` exactly at those accesses in the source whose
name is bound neither locally nor by the module's imports. -/

/-- A few Python 2 builtin names the modelled code touches. -/
def py2Builtins : List String :=
  ["len", "hasattr", "isinstance", "basestring", "xrange", "cmp", "int",
   "open", "ValueError", "TypeError", "AssertionError", "Exception", "None",
   "True", "False"]

/-- Names bound at module level in src/rst2a/common.py: its imports are
`import tempfile` and `import os` only, plus its own top-level
definitions. -/
def commonGlobals : List String :=
  ["tempfile", "os", "VALID_NETLOCS", "remove_dir", "is_url", "stream_cp",
   "reverse_lookup", "is_filelike", "create_temp_file"]

/-- Names bound at module level in src/rst2a/images.py: `StringIO`, `isdir`,
`isfile`, `splitext`, `mkdtemp`, `mkstemp`, `urlopen`, `docutils`, `Image`
(possibly `None`), the three imports from rst2a.common, and its own
top-level definitions.  Notably absent: `os`, `getcwdu`, `chdir`, `join`. -/
def imagesGlobals : List String :=
  ["StringIO", "isdir", "isfile", "splitext", "mkdtemp", "mkstemp",
   "urlopen", "docutils", "Image", "is_url", "stream_cp", "reverse_lookup",
   "ImageURLError", "ImageLocalizer"]

/-- Resolve a bare name against a module namespace and the builtins. -/
def pyGlobal (globalNames : List String) (n : String) : Except PyErr Unit :=
  if globalNames.contains n || py2Builtins.contains n then Except.ok ()
  else Except.error (PyErr.nameError n)

/-! ### rst2a/common.py -/

/-- common.py line 26: `VALID_NETLOCS = ('ftp', 'http', 'https', 'shttp',
'sftp')`. -/
def VALID_NETLOCS : List String := ["ftp", "http", "https", "shttp", "sftp"]

/-- The `net_loc` argument of `is_url` is either a string (the default is the
empty string) or an iterable of strings. -/
inductive NetLoc where
  | str (s : String)
  | list (l : List String)
deriving DecidableEq, Repr

/-- Characters CPython 2 urlparse admits in a scheme: ASCII letters, digits,
and the characters plus, minus, dot. -/
def schemeChar (c : Char) : Bool :=
  c.isAlphanum || c == '+' || c == '-' || c == '.'

/-- Scheme extraction of CPython 2 urlparse.urlsplit (stdlib, not repository
code): the text before the first colon, lowercased, is the scheme provided
it is nonempty, every character is a scheme character, and the remainder is
not a nonempty pure-digit string (the port-number caveat); otherwise the
scheme is the empty string. -/
def urlsplitScheme (url : String) : String :=
  match url.splitOn ":" with
  | [] => ""
  | [_] => ""
  | pre :: rest =>
    let restStr := String.intercalate ":" rest
    if !pre.isEmpty && pre.all schemeChar
        && !(!restStr.isEmpty && restStr.all Char.isDigit) then
      pre.toLower
    else ""

/-- common.py lines 42-52 (`is_url`).  The module imports only `tempfile` and
`os`, so the very first statement, `url_net_loc = urlparse(url)[0]`, looks up
the unbound name `urlparse` and raises NameError on every call.  The rest of
the body mirrors the source: `if not net_loc` is Python truthiness (the empty
string and the empty list are falsy), `hasattr(net_loc, '__iter__')` holds
for lists but not for Python 2 strings, and the final branch compares the
scheme with a string `net_loc`. -/
def is_url (url : String) (net_loc : NetLoc) : Except PyErr Bool := do
  pyGlobal commonGlobals "urlparse"
  let url_net_loc := urlsplitScheme url
  let falsy := match net_loc with
    | NetLoc.str s => s.isEmpty
    | NetLoc.list l => l.isEmpty
  if falsy then
    if VALID_NETLOCS.contains url_net_loc then return true
    else return false
  else
    match net_loc with
    | NetLoc.list l =>
      if l.contains url_net_loc then return true
      else return false
    | NetLoc.str s =>
      if url_net_loc == s then return true
      else return false

/-- common.py lines 68-72 (`reverse_lookup`): scan the mapping in insertion
order for a pair whose value equals the given value and return its key;
raise ValueError when no value matches. -/
def reverse_lookup (dictionary : List (String × MapVal)) (value : MapVal) :
    Except PyErr String :=
  match dictionary.find? (fun kv => kv.2 == value) with
  | some kv => Except.ok kv.1
  | none => Except.error PyErr.valueError

/-! ### Filesystem primitives

Paths are slash-separated strings; a path is a direct child of directory `d`
when it extends `d` by exactly one slash-free component. -/

def pathJoin (d f : String) : String := d ++ "/" ++ f

/-- Strip a leading character sequence; none when it is not a prefix. -/
def dropLeading : List Char → List Char → Option (List Char)
  | [], s => some s
  | _ :: _, [] => none
  | c :: cs, e :: es => if c == e then dropLeading cs es else none

/-- The name of `p` as a direct child of directory `d`, when it is one:
`p` extends `d` by a slash and one nonempty slash-free component. -/
def childName (d p : String) : Option String :=
  match dropLeading (d ++ "/").toList p.toList with
  | none => none
  | some rest =>
    if rest.isEmpty || rest.contains '/' then none
    else some (String.mk rest)

def subdirNames (w : World) (d : String) : List String :=
  w.dirs.filterMap (childName d)

def fileNames (w : World) (d : String) : List String :=
  w.files.filterMap (childName d)

/-- os.path.isfile. -/
def isfileM (p : String) : M Bool := do
  let w ← mGet
  mPure (w.files.contains p)

/-- os.path.isdir. -/
def isdirM (d : String) : M Bool := do
  let w ← mGet
  mPure (w.dirs.contains d)

/-- os.rmdir: removes an existing empty directory, raises OSError when the
directory is missing or nonempty. -/
def osRmdir (d : String) : M Unit := do
  let w ← mGet
  if w.dirs.contains d && (subdirNames w d).isEmpty
      && (fileNames w d).isEmpty then
    mSet { w with dirs := w.dirs.erase d,
                  events := w.events ++ [Event.rmdirOf d] }
  else
    mThrow PyErr.osError

/-- os.remove: removes an existing file, raises OSError when it is missing. -/
def osRemove (p : String) : M Unit := do
  let w ← mGet
  if w.files.contains p then
    mSet { w with files := w.files.erase p,
                  events := w.events ++ [Event.rmfile p] }
  else
    mThrow PyErr.osError

/-- os.chdir / os.getcwdu: the process working directory. -/
def chdirM (d : String) : M Unit :=
  mModify (fun w => { w with cwd := d, events := w.events ++ [Event.chdirTo d] })

/-- tempfile.mkdtemp: create a freshly named directory under /tmp with the
given name stem and return its path. -/
def mkdtempM (stem : String) : M String := do
  let w ← mGet
  let name := "/tmp/" ++ stem ++ toString w.tempCounter
  mSet { w with dirs := name :: w.dirs, tempCounter := w.tempCounter + 1,
                events := w.events ++ [Event.mkdir name] }
  mPure name

/-- urllib2.urlopen: open a byte stream for a remote URL.  Transport failures
are external to the model; the call is recorded as a download event. -/
def urlopenM (url : String) : M Unit :=
  mModify (fun w => { w with events := w.events ++ [Event.download url] })

/-- Creation of a local file (open for writing plus the streamed copy, or a
PIL save): the path comes into existence and is recorded. -/
def writeFileM (p : String) : M Unit :=
  mModify (fun w =>
    { w with files := if w.files.contains p then w.files else w.files ++ [p],
             events := w.events ++ [Event.mkfile p] })

/-! ### common.py remove_dir -/

/-- The triples `(dirpath, dirnames, filenames)` of os.walk, top-down, taken
as a snapshot of the world at loop entry.  os.walk is a lazy generator and on
a vanished directory yields nothing (listdir errors are swallowed when no
error handler is given); on the worlds of the theorems below (no
subdirectories, so a single triple) the snapshot coincides with the
generator. -/
def walkFS (w : World) : Nat → String → List (String × List String × List String)
  | 0, _ => []
  | fuel + 1, d =>
    if w.dirs.contains d then
      let subs := subdirNames w d
      let fils := fileNames w d
      (d, subs, fils) :: subs.flatMap (fun s => walkFS w fuel (pathJoin d s))
    else []

/-- The body of the `for filename in files` loop of remove_dir (common.py
lines 33-35): `os.remove(join(temp_dirname, filename))`.  The name `join` is
bound nowhere in common.py, so with a nonempty file list the first iteration
raises NameError before any file is removed. -/
def removeFilesLoop (temp_dirname : String) : List String → M Unit
  | [] => mPure ()
  | f :: rest => do
    liftE (pyGlobal commonGlobals "join")
    osRemove (pathJoin temp_dirname f)
    removeFilesLoop temp_dirname rest

/-- The body of the `for sub_dir in sub_dirs` loop of remove_dir (common.py
lines 36-38): the recursive call `remove_dir(sub_dir)` passes the bare child
name os.walk yields, not a full path.  The recursive knot is passed in so
that `remove_dir` below recurses on fuel alone. -/
def removeSubdirsLoop (rec : String → M Unit) : List String → M Unit
  | [] => mPure ()
  | s :: rest => do
    rec s
    removeSubdirsLoop rec rest

/-- One iteration of remove_dir's outer loop over the walk triples (common.py
lines 29-39): remove the directory when it has no children, loop over its
files and subdirectories otherwise, and then — unconditionally — `os.rmdir`
the directory again at the end of the loop body. -/
def removeTriplesLoop (rec : String → M Unit) :
    List (String × List String × List String) → M Unit
  | [] => mPure ()
  | (temp_dirname, sub_dirs, files) :: rest => do
    if sub_dirs.isEmpty && files.isEmpty then
      osRmdir temp_dirname
    if !files.isEmpty then
      removeFilesLoop temp_dirname files
    if !sub_dirs.isEmpty then
      removeSubdirsLoop rec sub_dirs
    osRmdir temp_dirname
    removeTriplesLoop rec rest

/-- common.py lines 28-39 (`remove_dir`), with a fuel bound on the recursion
depth of the `remove_dir(sub_dir)` calls; `remove_dirRun` below supplies fuel
exceeding the number of directories, so exhaustion is unreachable on the
inputs considered. -/
def remove_dir : Nat → String → M Unit
  | 0, _ => mThrow PyErr.osError
  | fuel + 1, dirname => do
    let w0 ← mGet
    removeTriplesLoop (remove_dir fuel) (walkFS w0 (w0.dirs.length + 1) dirname)
    osRmdir dirname

/-- Entry point for `remove_dir(dirname)`. -/
def remove_dirRun (dirname : String) : M Unit := do
  let w ← mGet
  remove_dir (w.dirs.length + 1) dirname

/-! ### rst2a/images.py -/

/-- os.path.splitext(p)[1]: the suffix of the last path component starting at
its last dot, provided something other than dots precedes that dot; empty
otherwise. -/
def splitextExt (p : String) : String :=
  let base := (p.splitOn "/").getLastD ""
  let parts := base.splitOn "."
  if parts.length ≥ 2 && !((parts.dropLast).all String.isEmpty) then
    "." ++ parts.getLastD ""
  else ""

/-- images.py lines 43-49: the localizer's own mutable state — the
localization map `localized_images` (an insertion-ordered dictionary from
remote reference to stored value), the `check_images` flag, the temporary
workspace directory `temp_dir`, and the name-mangled mode flag
`__local_mode`. -/
structure ImageLocalizer where
  localized_images : List (String × MapVal)
  check_images : Bool
  temp_dir : String
  local_mode : Bool
deriving DecidableEq, Repr

/-- images.py lines 45-50 (constructor): empty map, caller-supplied flags,
and a fresh workspace from `mkdtemp(prefix='img_')`. -/
def mkImageLocalizer (check_images local_mode : Bool) : M ImageLocalizer := do
  let td ← mkdtempM "img_"
  mPure (ImageLocalizer.mk [] check_images td local_mode)

/-- images.py lines 52-53 (`switch_mode`): toggle the mode flag. -/
def switch_mode (lz : ImageLocalizer) : ImageLocalizer :=
  { lz with local_mode := !lz.local_mode }

/-- Read `img_node.attributes['uri']` of the node at walk position `i`. -/
def getNodeUri (i : Nat) : M String := do
  let w ← mGet
  match w.nodes[i]? with
  | some n => mPure n.uri
  | none => mThrow PyErr.valueError

def setUriAt : List ImgNode → Nat → String → List ImgNode
  | [], _, _ => []
  | n :: rest, 0, u => { n with uri := u } :: rest
  | n :: rest, Nat.succ i, u => n :: setUriAt rest i u

/-- Write `img_node.attributes['uri']` of the node at walk position `i`. -/
def setNodeUri (i : Nat) (u : String) : M Unit :=
  mModify (fun w => { w with nodes := setUriAt w.nodes i u })

/-- Association-list lookup, mirroring `img_url in self.localized_images`
followed by `self.localized_images[img_url]`. -/
def lookupMap (m : List (String × MapVal)) (k : String) : Option MapVal :=
  match m.find? (fun kv => kv.1 == k) with
  | some kv => some kv.2
  | none => none

/-- images.py lines 55-73 (`localize_image`).  When `local_filename` is None,
line 57 evaluates `mkstemp(dir=self.temp_dir, suffix=img_ext)`: `img_ext` is
a local variable of the function (it is assigned at line 59), read here
before any assignment, so CPython raises UnboundLocalError while evaluating
the argument — before `mkstemp` allocates a file and before `urlopen` opens
the network stream.  With a filename supplied, the function downloads the
resource, checks the extension, writes the local file (through PIL when
`check_images` is set and the `Image` module imported), and returns the
filename. -/
def localize_image (lz : ImageLocalizer) (img_url : String)
    (local_filename : Option String) : M String := do
  let local_filename ← (match local_filename with
    | none => (mThrow (PyErr.unboundLocalError "img_ext") : M String)
    | some lf => mPure lf)
  urlopenM img_url
  let img_ext := (splitextExt img_url).toLower
  if !([".png", ".jpg", ".gif"].contains img_ext) then
    mThrow (PyErr.assertionError img_ext)
  let w ← mGet
  if lz.check_images && w.imageLibAvailable then
    writeFileM local_filename
  else
    writeFileM local_filename
  mPure local_filename

/-- images.py lines 75-105 (`visit_image`), acting on the node at walk
position `i` and returning the localizer (whose `temp_dir` and
`localized_images` the method may mutate).

Local mode (lines 76-91): recreate the workspace if it vanished; pass
through when `uri` is an existing file; otherwise consult `is_url`, whose
body raises NameError("urlparse") on every call, so everything beyond line
82 is unreachable.  The unreachable remainder is modelled faithfully: the
invalid-URL raise at line 83; the cache-hit branch at lines 84-89, whose
test `not isfile(temp_local_filename)` reads a name bound nowhere and so
would itself raise NameError; and the fresh-reference branch at line 91,
which stores the bound method `self.localize_image` as the map value and
neither downloads anything nor rewrites the node.

Restore mode (lines 92-105): line 94 evaluates `not isfile(img_path) and not
is_url(img_path)`; whenever the short-circuit reaches `is_url` — and line 96
calls it in any case — NameError("urlparse") is raised.  The unreachable
remainder models lines 96-105, where `os.remove` would also fault on the
unbound name `os`. -/
def visit_image (lz : ImageLocalizer) (i : Nat) : M ImageLocalizer := do
  if lz.local_mode then
    let d ← isdirM lz.temp_dir
    let lz ← (if !d then do
        let td ← mkdtempM "img_"
        mPure { lz with temp_dir := td }
      else mPure lz)
    let img_url ← getNodeUri i
    let f ← isfileM img_url
    if f then
      return lz
    let u ← liftE (is_url img_url (NetLoc.str ""))
    if !u then
      mThrow (PyErr.imageURLError ("Invalid image URL: " ++ img_url))
    else
      match lookupMap lz.localized_images img_url with
      | some local_filename => do
        -- line 86 reads `temp_local_filename`, bound nowhere: NameError.
        -- The conditional re-download at line 87 and the rewrite at line 88
        -- are unreachable past it (and `local_filename` would anyway be the
        -- bound method stored by line 91, not a path string).
        liftE (pyGlobal imagesGlobals "temp_local_filename")
        match local_filename with
        | MapVal.path p => do
          setNodeUri i p
          mPure lz
        | MapVal.method => mThrow PyErr.typeError
      | none =>
        mPure { lz with
          localized_images := lz.localized_images ++ [(img_url, MapVal.method)] }
  else
    let img_path ← getNodeUri i
    let pf ← isfileM img_path
    if !pf then
      let u ← liftE (is_url img_path (NetLoc.str ""))
      if !u then
        mThrow (PyErr.imageURLError ("Invalid image URL: " ++ img_path))
    let u2 ← liftE (is_url img_path (NetLoc.str ""))
    if u2 then
      return lz
    else
      let pf2 ← isfileM img_path
      if pf2 then
        match reverse_lookup lz.localized_images (MapVal.path img_path) with
        | Except.error _ => return lz
        | Except.ok img_url => do
          setNodeUri i img_url
          liftE (pyGlobal imagesGlobals "os")
          osRemove img_path
          mPure lz
      else
        mPure lz

/-- images.py lines 107-108 (`visit_figure`): delegate to `visit_image`. -/
def visit_figure (lz : ImageLocalizer) (i : Nat) : M ImageLocalizer :=
  visit_image lz i

/-- One docutils walk step: dispatch the node at position `i` to the
visitor's handler for its kind; a raised exception propagates and aborts the
walk. -/
def walkStep (lz : ImageLocalizer) (i : Nat) : M ImageLocalizer := do
  let w ← mGet
  match w.nodes[i]? with
  | some n =>
    match n.kind with
    | NodeKind.image => visit_image lz i
    | NodeKind.figure => visit_figure lz i
  | none => mPure lz

def walkAux (lz : ImageLocalizer) : List Nat → M ImageLocalizer
  | [] => mPure lz
  | i :: rest => do
    let lz1 ← walkStep lz i
    walkAux lz1 rest

/-- `doctree.walk(self)`: visit the document's image and figure nodes in
order.  A SparseNodeVisitor skips every other node kind. -/
def walk (lz : ImageLocalizer) : M ImageLocalizer := do
  let w ← mGet
  walkAux lz (List.range w.nodes.length)

/-- images.py lines 110-114 (`localize_images`).  The first statement,
`old_dir = getcwdu()`, looks up `getcwdu`, which images.py never imports, so
the method raises NameError before reading or changing anything.  The
unreachable remainder is modelled faithfully: `chdir` (also unbound) into
the workspace, the walk, and `os.chdir(old_dir)` (`os` also unbound) — there
is no try/finally, so even with the imports supplied the restoring chdir
would run only on the normal path. -/
def localize_images (lz : ImageLocalizer) : M ImageLocalizer := do
  liftE (pyGlobal imagesGlobals "getcwdu")
  let w ← mGet
  let old_dir := w.cwd
  liftE (pyGlobal imagesGlobals "chdir")
  chdirM lz.temp_dir
  let lz1 ← walk lz
  liftE (pyGlobal imagesGlobals "os")
  chdirM old_dir
  mPure lz1

/-- images.py lines 116-124 (`cleanup_images`): toggle to restore mode, walk
the tree, toggle back, then optionally `os.rmdir(self.temp_dir)` inside
`try ... except OSError: pass`.  The name `os` is unbound in images.py, and
the resulting NameError is not an OSError, so the except clause does not
catch it. -/
def cleanup_images (lz : ImageLocalizer) (delete_temp_dir : Bool) :
    M ImageLocalizer := do
  let lz1 := switch_mode lz
  let lz2 ← walk lz1
  let lz3 := switch_mode lz2
  if delete_temp_dir then
    mTry
      (do
        liftE (pyGlobal imagesGlobals "os")
        osRmdir lz3.temp_dir)
      (fun e => match e with
        | PyErr.osError => mPure ()
        | e1 => mThrow e1)
  mPure lz3

/-- The localize-then-cleanup round trip of the spec: `localize_images`
followed by `cleanup_images` with workspace deletion. -/
def roundTrip (lz : ImageLocalizer) : M ImageLocalizer := do
  let lz1 ← localize_images lz
  cleanup_images lz1 true

/-! ### Concrete fixtures

The localizer state below is exactly the post-constructor state reached by
`mkImageLocalizer false true` on a pristine world: empty map, LocalMode, and
the fresh workspace `/tmp/img_0`, which exists. -/

/-- A fresh LocalMode localizer with its workspace at `/tmp/img_0`. -/
def lzA : ImageLocalizer := ImageLocalizer.mk [] false "/tmp/img_0" true

/-- World with one image node referencing a remote uri; no local file of
that name exists, the workspace directory exists, no events yet. -/
def wA : World :=
  { files := [], dirs := ["/tmp/img_0"], cwd := "/home/user",
    nodes := [ImgNode.mk NodeKind.image "http://example.org/a.png"],
    tempCounter := 1, imageLibAvailable := false, events := [] }

/-- World with two image nodes referencing the same remote uri. -/
def wB : World :=
  { wA with nodes := [ImgNode.mk NodeKind.image "http://example.org/a.png",
                      ImgNode.mk NodeKind.image "http://example.org/a.png"] }

/-- World with one image node whose uri is neither an existing file nor a
remote reference. -/
def wNotUrl : World :=
  { wA with nodes := [ImgNode.mk NodeKind.image "not-a-url"] }

/-- Restore scenario: the map records the localized file `/tmp/img_0/t0`
for the remote reference, the node points at that local path, and the file
itself has been deleted externally (it is absent from `files`). -/
def lzR : ImageLocalizer :=
  ImageLocalizer.mk [("http://example.org/a.png", MapVal.path "/tmp/img_0/t0")]
    false "/tmp/img_0" true

/-- World for the restore scenario: the recorded temporary file is gone. -/
def wR : World :=
  { wA with nodes := [ImgNode.mk NodeKind.image "/tmp/img_0/t0"] }

/-- World containing a single empty directory `/tmp/d`. -/
def wDirEmpty : World :=
  { files := [], dirs := ["/tmp/d"], cwd := "/", nodes := [],
    tempCounter := 0, imageLibAvailable := false, events := [] }

/-- World containing the directory `/tmp/d` holding one file. -/
def wDirFile : World := { wDirEmpty with files := ["/tmp/d/f.txt"] }

/-! ### Theorems for the claims -/

/-- C1: the claim states that a LocalMode visit of a fresh remote reference
downloads the resource, records the remote-to-local-path mapping, and
rewrites the node's uri.  On the code, the visit raises
NameError("urlparse") as soon as line 82 consults `is_url` (common.py never
imports `urlparse`), and the world — files, events, document tree — is left
exactly as it was: nothing is downloaded, recorded, or rewritten.  (Behind
that error, line 91 would store the bound method `localize_image`, not a
path, and still neither download nor rewrite.) -/
theorem c1_visit_fresh_remote_raises :
    runE (visit_image lzA 0) wA = Except.error (PyErr.nameError "urlparse")
    ∧ runW (visit_image lzA 0) wA = wA :=
  And.intro rfl rfl

/-- C2: the claim states that `localize_images` followed by `cleanup_images`
restores every originally-remote uri and removes every temporary file.  On
the code, the round trip raises NameError("getcwdu") at the first statement
of `localize_images` (images.py imports neither `getcwdu` nor `chdir` nor
`os`), before the tree is walked; the world is unchanged and the round trip
never completes. -/
theorem c2_round_trip_raises :
    runE (roundTrip lzA) wA = Except.error (PyErr.nameError "getcwdu")
    ∧ runW (roundTrip lzA) wA = wA :=
  And.intro rfl rfl

/-- C3: the claim states that visiting the same remote reference twice in
LocalMode downloads once and rewrites both nodes to the same recorded local
path.  On the code, the LocalMode walk over two nodes bearing the same
remote uri raises NameError("urlparse") at the first node and leaves the
world unchanged: no download event occurs and neither node is rewritten. -/
theorem c3_repeat_visit_raises :
    runE (walk lzA) wB = Except.error (PyErr.nameError "urlparse")
    ∧ runW (walk lzA) wB = wB :=
  And.intro rfl rfl

/-- C4 counterexample: the claim states that `localize_images` changes the
process working directory to the workspace for the duration of the
traversal.  At this concrete input no chdir to the workspace ever happens
and the call does not complete normally. -/
theorem c4_counterexample :
    ((runW (localize_images lzA) wA).events.contains
        (Event.chdirTo lzA.temp_dir)) = false
    ∧ isOkE (runE (localize_images lzA) wA) = false :=
  And.intro rfl rfl

/-- C4 amended: `localize_images` never changes (nor therefore restores) the
process working directory on any input: its first statement raises
NameError("getcwdu") — `getcwdu`, `chdir` and `os` are all unbound in
images.py — and the world is returned untouched.  (The source also has no
try/finally, so even with the imports supplied the restoring `os.chdir`
would run only on the normal path.) -/
theorem c4_localize_images_never_touches_cwd (lz : ImageLocalizer) (w : World) :
    runE (localize_images lz) w = Except.error (PyErr.nameError "getcwdu")
    ∧ runW (localize_images lz) w = w :=
  And.intro rfl rfl

/-- C5 counterexample: the claim states that when a temporary file recorded
in the LocalizationMap has been deleted externally, the RestoreMode
traversal does not raise.  In exactly that scenario — map records
`/tmp/img_0/t0`, the node points at it, the file is gone —
`cleanup_images` raises. -/
theorem c5_counterexample :
    isOkE (runE (cleanup_images lzR true) wR) = false :=
  rfl

/-- C5 amended: the restore pass raises instead of tolerating the missing
file.  For any localization map, `check_images` flag and workspace path,
`cleanup_images` on the tree whose node carries the vanished local path
raises NameError("urlparse"): the RestoreMode visitor consults `is_url` at
line 94 (or line 96) for every node, and `is_url` raises on every call.
(With the `urlparse` import supplied, line 94 would still raise
ImageURLError here, since the vanished path is neither a file nor a
recognized URL.) -/
theorem c5_cleanup_on_vanished_file_raises
    (m : List (String × MapVal)) (ci : Bool) (td : String) :
    runE (cleanup_images (ImageLocalizer.mk m ci td true) true) wR
      = Except.error (PyErr.nameError "urlparse") :=
  rfl

/-- C6: the claim states that a LocalMode visit of a uri that is neither an
existing file nor a recognized remote reference raises ImageURLError.  On
the code, the visit of `"not-a-url"` raises NameError("urlparse") — the
classifier faults before the ImageURLError raise at line 83 can be reached
— and the world is unchanged (in particular no temporary file is
created). -/
theorem c6_invalid_uri_raises_nameError :
    runE (visit_image lzA 0) wNotUrl = Except.error (PyErr.nameError "urlparse")
    ∧ runW (visit_image lzA 0) wNotUrl = wNotUrl :=
  And.intro rfl rfl

/-- C7: the claim states that `is_url` is total and returns a boolean
without raising.  On the code, `is_url` raises NameError("urlparse") on
every input whatsoever — its first statement looks up `urlparse`, which
common.py never imports. -/
theorem c7_is_url_always_raises (u : String) (nl : NetLoc) :
    is_url u nl = Except.error (PyErr.nameError "urlparse") :=
  rfl

/-- C8: the claim states that `is_url(u, S)` returns True exactly when the
scheme of `u` is in `S`, so that the ftp reference is accepted under
allow-list {http, ftp} and rejected under {http}.  On the code, both calls
raise NameError("urlparse") instead of returning anything. -/
theorem c8_is_url_ftp_raises :
    is_url "ftp://example.org/b.gif" (NetLoc.list ["http", "ftp"])
      = Except.error (PyErr.nameError "urlparse")
    ∧ is_url "ftp://example.org/b.gif" (NetLoc.list ["http"])
      = Except.error (PyErr.nameError "urlparse") :=
  And.intro rfl rfl

/-- C9: the claim states that `remove_dir` removes a directory tree and
never raises.  On the code, removing an empty directory raises OSError —
the first loop branch rmdirs the directory and the unconditional
`os.rmdir(temp_dirname)` at the end of the loop body hits the now-missing
directory — and removing a directory that contains a file raises
NameError("join"), since `join` is unbound in common.py. -/
theorem c9_remove_dir_raises :
    runE (remove_dirRun "/tmp/d") wDirEmpty = Except.error PyErr.osError
    ∧ runE (remove_dirRun "/tmp/d") wDirFile
      = Except.error (PyErr.nameError "join") :=
  And.intro rfl rfl

/-- C10: for every localizer state, url and world, calling `localize_image`
with `local_filename` omitted (None) raises UnboundLocalError("img_ext") —
line 57 reads the local `img_ext` to choose the temporary-file suffix
before line 59 assigns it — and the world is returned untouched: no network
or file I/O is performed, so no fresh download through the default path can
succeed. -/
theorem c10_localize_image_default_unbound
    (lz : ImageLocalizer) (u : String) (w : World) :
    runE (localize_image lz u none) w
      = Except.error (PyErr.unboundLocalError "img_ext")
    ∧ runW (localize_image lz u none) w = w :=
  And.intro rfl rfl

end Rst2a
